import Mathlib

/-
Verification of the settings-area route handlers and the layout load
function of apps/ui/src/routes/__layout.svelte (Coolify).

The handlers are translated as pure functions over an explicit database
state.  Asynchronous external calls (listSettings, dns.resolve,
isDomainConfigured, checkDomainsIsValidInDNS, isDNSValid, asyncExecShell,
the get() HTTP client) are passed in as parameters carrying their
outcome; database calls made through the prisma client can be made to
fail through an injection oracle (fail : Nat -> Option Err), one index
per call site, modelling thrown database errors.
-/

/-- Error value as caught by the handlers: the generic catch clause
destructures the thrown object into its status and message fields, either
of which may be absent (undefined). -/
structure Err where
  status : Option Nat
  message : Option String
deriving DecidableEq, Repr

/-- Result of a route handler: either its normal value or the error
reply produced by errorHandler. -/
inductive HandlerResult (α : Type) where
  | ok (val : α)
  | err (status : Option Nat) (message : Option String)
deriving DecidableEq, Repr

/-- Modelled from the spec: errorHandler is imported from lib/common,
which is not part of the excerpt; per the spec it is the generic
try/catch-to-HTTP-status translator, so it is modelled as building the
error reply from the caught status and message. -/
def errorHandler {α : Type} (status : Option Nat) (message : Option String) : HandlerResult α :=
  HandlerResult.err status message

/-- Reply values produced through the fastify reply object. -/
inductive Reply where
  | code201
  | redirect302 (location : Option String)
deriving DecidableEq, Repr

/-- Empty JSON object returned by checkDNS. -/
inductive EmptyObj where
  | mk
deriving DecidableEq, Repr

/-- Failure injection for one prisma call site: when the oracle supplies
an error for this site the call throws it, otherwise the call returns
its value. -/
def exTry {α : Type} (inj : Option Err) (v : α) : Except Err α :=
  match inj with
  | some e => Except.error e
  | none => Except.ok v

/-- Oracle under which no database call fails. -/
def noFail : Nat → Option Err := fun _ => none

/-- Truthiness of a JS value that is either undefined or a string: the
empty string and undefined are falsy. -/
def jsTruthyOptStr : Option String → Bool
  | none => false
  | some s => s ≠ ""

/-- Truthiness of a JS value that is either undefined or a number:
undefined and 0 are falsy. -/
def jsTruthyOptNat : Option Nat → Bool
  | none => false
  | some n => n ≠ 0

/-- String interpolation of a possibly undefined JS value: undefined
renders as the text undefined. -/
def jsShowOpt : Option String → String
  | none => "undefined"
  | some s => s

/-- Model of JS String.prototype.split with a single-character
separator, at the character-list level. -/
def splitOnChar (sep : Char) : List Char → List (List Char)
  | [] => [[]]
  | c :: rest =>
    let r := splitOnChar sep rest
    if c = sep then [] :: r
    else
      match r with
      | [] => [[c]]
      | h :: t => (c :: h) :: t

/-- Model of JS String.prototype.split with a single-character
separator. -/
def jsSplit (sep : Char) (s : String) : List String :=
  (splitOnChar sep s.data).map String.mk

/-- Model of JS String.prototype.startsWith. -/
def jsStartsWith (s pat : String) : Bool :=
  pat.data.isPrefixOf s.data

/-- Model of JS String.prototype.toLowerCase. -/
def jsToLowerCase (s : String) : String :=
  String.mk (s.data.map Char.toLower)

/-- Index of the first occurrence of pat in s, at the character-list
level; used to model JS String.prototype.replace with a string pattern,
which replaces only the first occurrence. -/
def findSubIdx (pat : List Char) : List Char → Option Nat
  | [] => if pat.isPrefixOf ([] : List Char) then some 0 else none
  | c :: rest =>
    if pat.isPrefixOf (c :: rest) then some 0
    else (findSubIdx pat rest).map (· + 1)

/-- Model of JS String.prototype.replace with a string pattern: replaces
the first occurrence of pat by repl, or returns s unchanged when pat
does not occur. -/
def replaceFirst (s pat repl : String) : String :=
  match findSubIdx pat.data s.data with
  | none => s
  | some i => String.mk (s.data.take i ++ repl.data ++ s.data.drop (i + pat.data.length))

/-- Modelled from the spec: encrypt is imported from lib/common, which is
not part of the excerpt; per the spec it encrypts a stored secret through
a library call.  It is modelled as an injective tagging of the plaintext
whose output is never the empty string. -/
def encrypt (s : String) : String :=
  String.mk ('#' :: s.data)

/-- Modelled from the spec: decrypt is imported from lib/common, which is
not part of the excerpt; per the spec it is the inverse of encrypt. -/
def decrypt (s : String) : String :=
  String.mk (s.data.drop 1)

/-- Modelled from the spec: the X509Certificate parser is a node:crypto
library call not part of the excerpt; the stored certificate text stands
directly for the parsed subject field read by the handler. -/
def x509subject (cert : String) : String := cert

/-- Row of the Setting table, with the columns the handlers touch. -/
structure SettingRow where
  id : String
  fqdn : Option String
  doNotTrack : Bool
  isRegistrationEnabled : Bool
  dualCerts : Bool
  minPort : Nat
  maxPort : Nat
  isAutoUpdateEnabled : Bool
  isDNSCheckEnabled : Bool
  DNSServers : Option String
  isAPIDebuggingEnabled : Bool
  proxyDefaultRedirect : Option String
deriving DecidableEq, Repr

/-- Row of the SshKey table. -/
structure SshKeyRow where
  id : String
  name : String
  privateKey : String
  teamId : String
  createdAt : Nat
deriving DecidableEq, Repr

/-- Row of the Certificate table. -/
structure CertificateRow where
  id : String
  cert : String
  teamId : String
  createdAt : Nat
deriving DecidableEq, Repr

/-- Row of the DockerRegistry table. -/
structure DockerRegistryRow where
  id : String
  name : String
  url : String
  username : String
  password : String
  isSystemWide : Bool
  teamId : String
deriving DecidableEq, Repr

/-- Row of the Application table, restricted to the column the registry
handler touches. -/
structure ApplicationRow where
  id : String
  dockerRegistryId : String
deriving DecidableEq, Repr

/-- The relational store visible to the handlers. -/
structure DB where
  settings : List SettingRow
  sshKeys : List SshKeyRow
  certificates : List CertificateRow
  dockerRegistries : List DockerRegistryRow
  applications : List ApplicationRow
deriving DecidableEq, Repr

/-- Error thrown by prisma update when the unique where clause matches no
row. -/
def prismaNotFound : Err :=
  { status := none, message := some "Record to update not found." }

/-- Model of prisma.setting.update with a where clause on id: updates the
row whose id matches, throws when none does, and throws the injected
error when the oracle supplies one. -/
def settingUpdateWhereId (inj : Option Err) (id : String) (f : SettingRow → SettingRow) (db : DB) : Except Err DB :=
  match inj with
  | some e => Except.error e
  | none =>
    if db.settings.any (fun r => decide (r.id = id)) then
      Except.ok { db with settings := db.settings.map (fun r => if r.id = id then f r else r) }
    else Except.error prismaNotFound

/-- Model of prisma.setting.update with a where clause on fqdn, setting
fqdn to null: updates the row whose fqdn matches, throws when none
does. -/
def settingUpdateWhereFqdn (inj : Option Err) (fqdn : String) (db : DB) : Except Err DB :=
  match inj with
  | some e => Except.error e
  | none =>
    if db.settings.any (fun r => decide (r.fqdn = some fqdn)) then
      Except.ok { db with settings := db.settings.map (fun r => if r.fqdn = some fqdn then { r with fqdn := none } else r) }
    else Except.error prismaNotFound

/-- Model of prisma.dockerRegistry.update with a where clause on id:
updates the row whose id matches, throws when none does. -/
def registryUpdateWhereId (inj : Option Err) (id : String) (f : DockerRegistryRow → DockerRegistryRow) (db : DB) : Except Err DB :=
  match inj with
  | some e => Except.error e
  | none =>
    if db.dockerRegistries.any (fun r => decide (r.id = id)) then
      Except.ok { db with dockerRegistries := db.dockerRegistries.map (fun r => if r.id = id then f r else r) }
    else Except.error prismaNotFound

/-- Decrypted SSH key entry as returned by listAllSettings. -/
structure UnencryptedKey where
  id : String
  name : String
  privateKey : String
  createdAt : Nat
deriving DecidableEq, Repr

/-- Certificate entry of the listAllSettings answer: the common name
extracted from the certificate subject, with id and creation time. -/
structure CNEntry where
  commonName : String
  id : String
  createdAt : Nat
deriving DecidableEq, Repr

/-- Registries part of the listAllSettings answer; publicR and privateR
stand for the public and private JSON keys. -/
structure RegistriesOut where
  publicR : List DockerRegistryRow
  privateR : List DockerRegistryRow
deriving DecidableEq, Repr

/-- JSON object returned by listAllSettings on success. -/
structure ListAllSettingsOutput where
  settings : SettingRow
  certificates : List CNEntry
  sshKeys : List UnencryptedKey
  registries : RegistriesOut
deriving DecidableEq, Repr

/-- Error thrown in listAllSettings when the subject of a certificate
contains no line starting with CN=: find returns undefined and calling
replace on it throws a TypeError. -/
def jsUndefinedReplace : Err :=
  { status := none, message := some "Cannot read properties of undefined" }

/-- Common-name extraction step of the certificates loop of
listAllSettings: split the subject on newlines, find the first line
starting with CN=, and strip the CN= text from it; throws when no line
matches. -/
def extractCN (subject : String) : Except Err String :=
  match (jsSplit '\n' subject).find? (fun s => jsStartsWith s "CN=") with
  | some line => Except.ok (replaceFirst line "CN=" "")
  | none => Except.error jsUndefinedReplace

/-- Certificates loop of listAllSettings: pushes one entry per
certificate, in store order, stopping at the first certificate whose
subject extraction throws. -/
def computeCNs : List CertificateRow → Except Err (List CNEntry)
  | [] => Except.ok []
  | c :: rest =>
    match extractCN (x509subject c.cert) with
    | Except.error e => Except.error e
    | Except.ok cn =>
      match computeCNs rest with
      | Except.error e => Except.error e
      | Except.ok others => Except.ok ({ commonName := cn, id := c.id, createdAt := c.createdAt } :: others)

/-- Registry mapping step of listAllSettings: when the stored password is
truthy it is replaced by its decryption. -/
def decryptRegistry (r : DockerRegistryRow) : DockerRegistryRow :=
  if r.password ≠ "" then { r with password := decrypt r.password } else r

/-- Try block of listAllSettings: reads the settings row, the SSH keys of
the requesting team, the system-wide and the team-private registries,
decrypts registry passwords and key material, and extracts a common name
from each certificate of the team. -/
def listAllSettingsBody (fail : Nat → Option Err) (ls : Except Err SettingRow) (teamId : String) (db : DB) : Except Err ListAllSettingsOutput :=
  match ls with
  | Except.error e => Except.error e
  | Except.ok settings =>
  match exTry (fail 0) (db.sshKeys.filter (fun k => decide (k.teamId = teamId))) with
  | Except.error e => Except.error e
  | Except.ok sshKeys =>
  match exTry (fail 1) (db.dockerRegistries.filter (fun r => r.isSystemWide)) with
  | Except.error e => Except.error e
  | Except.ok publicRegistries =>
  match exTry (fail 2) (db.dockerRegistries.filter (fun r => decide (r.teamId = teamId) && !r.isSystemWide)) with
  | Except.error e => Except.error e
  | Except.ok privateRegistries =>
  let publicRegistries := publicRegistries.map decryptRegistry
  let privateRegistries := privateRegistries.map decryptRegistry
  let unencryptedKeys :=
    if sshKeys.length > 0 then
      sshKeys.map (fun k => { id := k.id, name := k.name, privateKey := decrypt k.privateKey, createdAt := k.createdAt : UnencryptedKey })
    else []
  match exTry (fail 3) (db.certificates.filter (fun c => decide (c.teamId = teamId))) with
  | Except.error e => Except.error e
  | Except.ok certificates =>
  match computeCNs certificates with
  | Except.error e => Except.error e
  | Except.ok cns =>
    Except.ok { settings := settings, certificates := cns, sshKeys := unencryptedKeys,
                registries := { publicR := publicRegistries, privateR := privateRegistries } }

/-- Catch wrapper shared by every handler: a normal value passes through,
a thrown error is turned into the errorHandler reply. -/
def wrap {α : Type} (x : Except Err α) : HandlerResult α :=
  match x with
  | Except.ok a => HandlerResult.ok a
  | Except.error e => errorHandler e.status e.message

/-- Catch wrapper for the handlers that mutate the store: the database
state reached at the point of the throw persists. -/
def wrapM {α : Type} (x : Except Err α × DB) : HandlerResult α × DB :=
  (wrap x.1, x.2)

/-- Route handler listAllSettings. -/
def listAllSettings (fail : Nat → Option Err) (ls : Except Err SettingRow) (teamId : String) (db : DB) : HandlerResult ListAllSettingsOutput :=
  wrap (listAllSettingsBody fail ls teamId db)

/-- Request body of saveSettings. -/
structure SaveSettingsReq where
  doNotTrack : Bool
  fqdn : Option String
  isAPIDebuggingEnabled : Bool
  isRegistrationEnabled : Bool
  dualCerts : Bool
  minPort : Option Nat
  maxPort : Option Nat
  isAutoUpdateEnabled : Bool
  isDNSCheckEnabled : Bool
  DNSServers : Option String
  proxyDefaultRedirect : Option String
deriving DecidableEq, Repr

/-- Sequencing of a fallible database call inside a mutating handler
body: on a throw the state reached so far persists. -/
def dbStep (x : Except Err DB) (db0 : DB) (k : DB → Except Err Reply × DB) : Except Err Reply × DB :=
  match x with
  | Except.error e => (Except.error e, db0)
  | Except.ok db1 => k db1

/-- Try block of saveSettings: reads the settings row id, then issues up
to four separate update calls (general flags; fqdn when truthy;
proxyDefaultRedirect; min and max port when both truthy).  The Sentry
initialisation touches no database state and is not modelled. -/
def saveSettingsBody (fail : Nat → Option Err) (ls : Except Err SettingRow) (req : SaveSettingsReq) (db : DB) : Except Err Reply × DB :=
  match ls with
  | Except.error e => (Except.error e, db)
  | Except.ok s =>
    dbStep (settingUpdateWhereId (fail 0) s.id (fun r =>
      { r with doNotTrack := req.doNotTrack, isRegistrationEnabled := req.isRegistrationEnabled,
               dualCerts := req.dualCerts, isAutoUpdateEnabled := req.isAutoUpdateEnabled,
               isDNSCheckEnabled := req.isDNSCheckEnabled, DNSServers := req.DNSServers,
               isAPIDebuggingEnabled := req.isAPIDebuggingEnabled }) db) db (fun db =>
    dbStep (if jsTruthyOptStr req.fqdn then settingUpdateWhereId (fail 1) s.id (fun r => { r with fqdn := req.fqdn }) db else Except.ok db) db (fun db =>
    dbStep (settingUpdateWhereId (fail 2) s.id (fun r => { r with proxyDefaultRedirect := req.proxyDefaultRedirect }) db) db (fun db =>
    dbStep (if jsTruthyOptNat req.minPort && jsTruthyOptNat req.maxPort then
              settingUpdateWhereId (fail 3) s.id (fun r => { r with minPort := req.minPort.getD r.minPort, maxPort := req.maxPort.getD r.maxPort }) db
            else Except.ok db) db (fun db =>
    (Except.ok Reply.code201, db)))))

/-- Route handler saveSettings. -/
def saveSettings (fail : Nat → Option Err) (ls : Except Err SettingRow) (req : SaveSettingsReq) (db : DB) : HandlerResult Reply × DB :=
  wrapM (saveSettingsBody fail ls req db)

/-- Try block of deleteDomain: reads the settings (the DNS server list
only feeds dns.setServers, an external call), attempts a DNS resolution
whose failure is swallowed, nulls the fqdn of the matching settings row
and redirects to the resolved address when one was obtained. -/
def deleteDomainBody (fail : Nat → Option Err) (ls : Except Err SettingRow) (dnsResolveRes : Except Err (List String)) (fqdn : String) (db : DB) : Except Err Reply × DB :=
  match ls with
  | Except.error e => (Except.error e, db)
  | Except.ok _ =>
    let ip : Option (List String) :=
      match dnsResolveRes with
      | Except.ok l => some l
      | Except.error _ => none
    dbStep (settingUpdateWhereFqdn (fail 0) fqdn db) db (fun db =>
      (Except.ok (Reply.redirect302 (match ip with
        | some l => some ("http://" ++ jsShowOpt l.head? ++ ":3000/settings")
        | none => none)), db))

/-- Route handler deleteDomain. -/
def deleteDomain (fail : Nat → Option Err) (ls : Except Err SettingRow) (dnsResolveRes : Except Err (List String)) (fqdn : String) (db : DB) : HandlerResult Reply × DB :=
  wrapM (deleteDomainBody fail ls dnsResolveRes fqdn db)

/-- Request body of checkDomain. -/
structure CheckDomainReq where
  fqdn : String
  forceSave : Bool
  dualCerts : Bool
  isDNSCheckEnabled : Bool
deriving DecidableEq, Repr

/-- Answer of checkDomain on success: either the empty JSON object or
the value returned by checkDomainsIsValidInDNS. -/
inductive CheckDomainOut (ρ : Type) where
  | emptyObj
  | dnsResult (r : ρ)
deriving DecidableEq, Repr

/-- Try block of checkDomain: lowercases a truthy fqdn, rejects a domain
already configured, and when the DNS check is enabled, the save is not
forced and the server is not in dev mode, forwards to
checkDomainsIsValidInDNS with the request hostname stripped of its port
suffix; otherwise answers the empty object. -/
def checkDomainBody {ρ : Type} (isDomainConfigured : String → String → Except Err Bool)
    (checkDomainsIsValidInDNS : String → String → Bool → Except Err ρ)
    (isDev : Bool) (hostname : String) (id : String) (req : CheckDomainReq) : Except Err (CheckDomainOut ρ) :=
  let fqdn := if req.fqdn ≠ "" then jsToLowerCase req.fqdn else req.fqdn
  match isDomainConfigured id fqdn with
  | Except.error e => Except.error e
  | Except.ok found =>
    if found then Except.error { status := none, message := some "Domain already configured" }
    else if req.isDNSCheckEnabled && !req.forceSave && !isDev then
      let hostnameNoPort := ((jsSplit ':' hostname).headD "")
      match checkDomainsIsValidInDNS hostnameNoPort fqdn req.dualCerts with
      | Except.error e => Except.error e
      | Except.ok r => Except.ok (CheckDomainOut.dnsResult r)
    else Except.ok CheckDomainOut.emptyObj

/-- Route handler checkDomain. -/
def checkDomain {ρ : Type} (isDomainConfigured : String → String → Except Err Bool)
    (checkDomainsIsValidInDNS : String → String → Bool → Except Err ρ)
    (isDev : Bool) (hostname : String) (id : String) (req : CheckDomainReq) : HandlerResult (CheckDomainOut ρ) :=
  wrap (checkDomainBody isDomainConfigured checkDomainsIsValidInDNS isDev hostname id req)

/-- Try block of checkDNS: awaits isDNSValid and answers the empty
object. -/
def checkDNSBody (isDNSValidRes : Except Err Unit) : Except Err EmptyObj :=
  match isDNSValidRes with
  | Except.error e => Except.error e
  | Except.ok _ => Except.ok EmptyObj.mk

/-- Route handler checkDNS. -/
def checkDNS (isDNSValidRes : Except Err Unit) : HandlerResult EmptyObj :=
  wrap (checkDNSBody isDNSValidRes)

/-- Request body of saveSSHKey. -/
structure SaveSSHKeyReq where
  privateKey : String
  name : String
deriving DecidableEq, Repr

/-- Try block of saveSSHKey: queries all SSH keys carrying the requested
name, rejects when any exists, otherwise stores the key with its private
key encrypted, connected to the requesting team. -/
def saveSSHKeyBody (fail : Nat → Option Err) (teamId : String) (req : SaveSSHKeyReq) (newId : String) (createdAt : Nat) (db : DB) : Except Err Reply × DB :=
  match exTry (fail 0) (db.sshKeys.filter (fun k => decide (k.name = req.name))) with
  | Except.error e => (Except.error e, db)
  | Except.ok found =>
    if found.length > 0 then
      (Except.error { status := none, message := some "Name already used. Choose another one please." }, db)
    else
      let encryptedSSHKey := encrypt req.privateKey
      match exTry (fail 1) ({ db with sshKeys := db.sshKeys ++ [{ id := newId, name := req.name, privateKey := encryptedSSHKey, teamId := teamId, createdAt := createdAt }] }) with
      | Except.error e => (Except.error e, db)
      | Except.ok db1 => (Except.ok Reply.code201, db1)

/-- Route handler saveSSHKey. -/
def saveSSHKey (fail : Nat → Option Err) (teamId : String) (req : SaveSSHKeyReq) (newId : String) (createdAt : Nat) (db : DB) : HandlerResult Reply × DB :=
  wrapM (saveSSHKeyBody fail teamId req newId createdAt db)

/-- Try block of deleteSSHKey: deleteMany of the rows matching both the
submitted id and the requesting team. -/
def deleteSSHKeyBody (fail : Nat → Option Err) (teamId : String) (id : String) (db : DB) : Except Err Reply × DB :=
  match fail 0 with
  | some e => (Except.error e, db)
  | none =>
    (Except.ok Reply.code201,
     { db with sshKeys := db.sshKeys.filter (fun k => decide (¬(k.id = id ∧ k.teamId = teamId))) })

/-- Route handler deleteSSHKey. -/
def deleteSSHKey (fail : Nat → Option Err) (teamId : String) (id : String) (db : DB) : HandlerResult Reply × DB :=
  wrapM (deleteSSHKeyBody fail teamId id db)

/-- Try block of deleteCertificates: runs the external shell removal of
the certificate files, then deleteMany of the rows matching both the
submitted id and the requesting team. -/
def deleteCertificatesBody (fail : Nat → Option Err) (execRes : Except Err Unit) (teamId : String) (id : String) (db : DB) : Except Err Reply × DB :=
  match execRes with
  | Except.error e => (Except.error e, db)
  | Except.ok _ =>
    match fail 0 with
    | some e => (Except.error e, db)
    | none =>
      (Except.ok Reply.code201,
       { db with certificates := db.certificates.filter (fun c => decide (¬(c.id = id ∧ c.teamId = teamId))) })

/-- Route handler deleteCertificates. -/
def deleteCertificates (fail : Nat → Option Err) (execRes : Except Err Unit) (teamId : String) (id : String) (db : DB) : HandlerResult Reply × DB :=
  wrapM (deleteCertificatesBody fail execRes teamId id db)

/-- Request body of setDockerRegistry. -/
structure SetRegistryReq where
  id : String
  username : String
  password : Option String
deriving DecidableEq, Repr

/-- Try block of setDockerRegistry: encrypts a truthy password (an empty
one is stored as the empty string), then updates the registry by id alone
for the admin team 0 and by id and team otherwise. -/
def setDockerRegistryBody (fail : Nat → Option Err) (teamId : String) (req : SetRegistryReq) (db : DB) : Except Err Reply × DB :=
  let encryptedPassword := if jsTruthyOptStr req.password then encrypt (req.password.getD "") else ""
  if teamId = "0" then
    match registryUpdateWhereId (fail 0) req.id (fun r => { r with username := req.username, password := encryptedPassword }) db with
    | Except.error e => (Except.error e, db)
    | Except.ok db1 => (Except.ok Reply.code201, db1)
  else
    match fail 0 with
    | some e => (Except.error e, db)
    | none =>
      (Except.ok Reply.code201,
       { db with dockerRegistries := db.dockerRegistries.map (fun r =>
          if r.id = req.id ∧ r.teamId = teamId then { r with username := req.username, password := encryptedPassword } else r) })

/-- Route handler setDockerRegistry. -/
def setDockerRegistry (fail : Nat → Option Err) (teamId : String) (req : SetRegistryReq) (db : DB) : HandlerResult Reply × DB :=
  wrapM (setDockerRegistryBody fail teamId req db)

/-- Request body of addDockerRegistry. -/
structure AddRegistryReq where
  name : String
  url : String
  username : String
  password : Option String
  isSystemWide : Bool
deriving DecidableEq, Repr

/-- Try block of addDockerRegistry: encrypts a truthy password and
creates the registry row connected to the requesting team. -/
def addDockerRegistryBody (fail : Nat → Option Err) (teamId : String) (req : AddRegistryReq) (newId : String) (db : DB) : Except Err Reply × DB :=
  let encryptedPassword := if jsTruthyOptStr req.password then encrypt (req.password.getD "") else ""
  match fail 0 with
  | some e => (Except.error e, db)
  | none =>
    (Except.ok Reply.code201,
     { db with dockerRegistries := db.dockerRegistries ++
        [{ id := newId, name := req.name, url := req.url, username := req.username,
           password := encryptedPassword, isSystemWide := req.isSystemWide, teamId := teamId }] })

/-- Route handler addDockerRegistry. -/
def addDockerRegistry (fail : Nat → Option Err) (teamId : String) (req : AddRegistryReq) (newId : String) (db : DB) : HandlerResult Reply × DB :=
  wrapM (addDockerRegistryBody fail teamId req newId db)

/-- Try block of deleteDockerRegistry: first resets the dockerRegistryId
of every application referencing the submitted id to the sentinel 0, then
deleteMany of the registry rows matching both the id and the requesting
team. -/
def deleteDockerRegistryBody (fail : Nat → Option Err) (teamId : String) (id : String) (db : DB) : Except Err Reply × DB :=
  match fail 0 with
  | some e => (Except.error e, db)
  | none =>
    let db1 := { db with applications := db.applications.map (fun a =>
      if a.dockerRegistryId = id then { a with dockerRegistryId := "0" } else a) }
    match fail 1 with
    | some e => (Except.error e, db1)
    | none =>
      (Except.ok Reply.code201,
       { db1 with dockerRegistries := db1.dockerRegistries.filter (fun r => decide (¬(r.id = id ∧ r.teamId = teamId))) })

/-- Route handler deleteDockerRegistry. -/
def deleteDockerRegistry (fail : Nat → Option Err) (teamId : String) (id : String) (db : DB) : HandlerResult Reply × DB :=
  wrapM (deleteDockerRegistryBody fail teamId id db)

/-- Error caught by the load function of the layout: the catch clause
reads an optional code (a string tested for the FAST_JWT text) and an
optional numeric status. -/
structure LoadErr where
  code : Option String
  status : Option Nat
deriving DecidableEq, Repr

/-- Response object returned by the layout load function, with the
fields the code sets: an optional status, an optional redirect target,
the baseSettings always carried in props, the user response spread into
props and stuff when present, and whether an error object is attached. -/
structure LoadResult (β υ : Type) where
  status : Option Nat
  redirect : Option String
  propsBaseSettings : β
  propsUser : Option υ
  stuff : Option υ
  isError : Bool
deriving DecidableEq, Repr

/-- Layout load function: with a truthy token cookie it fetches the user
and returns it in props and stuff; a fetch error clears the cookie for
JWT or 401 failures and redirects to login unless already there, where a
500 error response is produced instead; without a token it redirects to
login from any path other than login and register, and returns plain
props on those two. -/
def load {β υ : Type} (cookieToken : Option String) (getUserRes : Except LoadErr υ) (pathname : String) (baseSettings : β) : LoadResult β υ :=
  if jsTruthyOptStr cookieToken then
    match getUserRes with
    | Except.ok response =>
      { status := none, redirect := none, propsBaseSettings := baseSettings,
        propsUser := some response, stuff := some response, isError := false }
    | Except.error error =>
      let jwtOr401 : Bool :=
        (match error.code with
         | some c => jsStartsWith c "FAST_JWT"
         | none => false) || decide (error.status = some 401)
      if jwtOr401 && decide (pathname ≠ "/login") then
        { status := some 302, redirect := some "/login", propsBaseSettings := baseSettings,
          propsUser := none, stuff := none, isError := false }
      else if pathname ≠ "/login" then
        { status := some 302, redirect := some "/login", propsBaseSettings := baseSettings,
          propsUser := none, stuff := none, isError := false }
      else
        { status := some 500, redirect := none, propsBaseSettings := baseSettings,
          propsUser := none, stuff := none, isError := true }
  else
    if pathname ≠ "/login" ∧ pathname ≠ "/register" then
      { status := some 302, redirect := some "/login", propsBaseSettings := baseSettings,
        propsUser := none, stuff := none, isError := false }
    else
      { status := none, redirect := none, propsBaseSettings := baseSettings,
        propsUser := none, stuff := none, isError := false }

/-- Relation between a handler answer and its try-block outcome: the
answer is the normal value of the block, or errorHandler applied to the
status and message of the error the block threw. -/
def translated {α : Type} (r : HandlerResult α) (x : Except Err α) : Prop :=
  (∃ v, x = Except.ok v ∧ r = HandlerResult.ok v) ∨
  (∃ e, x = Except.error e ∧ r = errorHandler e.status e.message)

/-- Mutating-handler form of the translated relation: the answer part is
translated and the database state is the one the try block reached. -/
def translatedM {α : Type} (r : HandlerResult α × DB) (x : Except Err α × DB) : Prop :=
  translated r.1 x.1 ∧ r.2 = x.2

/-- Concrete settings row used by the concrete instantiations below. -/
def settingRow0 : SettingRow :=
  ⟨"s1", none, false, false, false, 9000, 9100, false, false, none, false, none⟩

/-- Store with only the settings row. -/
def dbSettingsOnly : DB := ⟨[settingRow0], [], [], [], []⟩

/-- Concrete error injected to make a database call fail. -/
def errDbDown : Err := ⟨some 500, some "db down"⟩

/-- Oracle failing exactly the second update call of saveSettings. -/
def failSecondCall : Nat → Option Err := fun k => if k = 1 then some errDbDown else none

/-- Concrete saveSettings request that flips doNotTrack and carries a
truthy fqdn, so that two update calls run. -/
def reqSaveSettings : SaveSettingsReq :=
  ⟨true, some "x", false, false, false, none, none, false, false, none, none⟩

/-- Concrete SSH key row named a, owned by team t1. -/
def sshRowA : SshKeyRow := ⟨"k1", "a", "#x", "t1", 0⟩

/-- Store holding only the key named a. -/
def dbWithKeyA : DB := ⟨[], [sshRowA], [], [], []⟩

/-- Two SSH key rows sharing an id, owned by different teams. -/
def sshKeyOtherTeam : SshKeyRow := ⟨"i", "n", "#k", "other", 1⟩

/-- Store for the team-scoping instantiation: two keys, two certificates
and two registries with the same ids but different teams. -/
def dbTwoTeams : DB :=
  ⟨[], [sshKeyOtherTeam, ⟨"i", "m", "#j", "t", 2⟩],
   [⟨"c", "CN=a", "other", 1⟩, ⟨"c", "CN=b", "t", 2⟩],
   [⟨"r", "n", "u", "us", "", false, "other"⟩, ⟨"r", "n", "u", "us", "", false, "t"⟩], []⟩

/-- Certificate whose subject carries a CN line. -/
def certWithCN : CertificateRow := ⟨"c1", "CN=example.com", "t", 4⟩

/-- Store holding only the certificate with a CN line. -/
def dbCertCN : DB := ⟨[], [], [certWithCN], [], []⟩

/-- Certificate whose subject carries no CN line. -/
def certNoCN : CertificateRow := ⟨"c2", "O=example", "t", 5⟩

/-- Store holding only the certificate without a CN line. -/
def dbCertNoCN : DB := ⟨[], [], [certNoCN], [], []⟩

/-- Registry row with id 0, the sentinel value the registry deletion
writes into applications. -/
def regIdZero : DockerRegistryRow := ⟨"0", "dockerhub", "docker.io", "u", "", true, "t"⟩

/-- Application referencing registry id 0. -/
def appRefZero : ApplicationRow := ⟨"app1", "0"⟩

/-- Store holding registry 0 and an application referencing it. -/
def dbRegZero : DB := ⟨[], [], [], [regIdZero], [appRefZero]⟩

/-- Empty store. -/
def emptyDB : DB := ⟨[], [], [], [], []⟩

/-- Catch wrapper soundness: the wrapped answer is the normal value of
the block or errorHandler of the thrown error. -/
theorem wrap_translated {α : Type} (x : Except Err α) : translated (wrap x) x := by
  cases x with
  | ok a => exact Or.inl ⟨a, rfl, rfl⟩
  | error e => exact Or.inr ⟨e, rfl, rfl⟩

/-- Catch wrapper soundness for the mutating handlers. -/
theorem wrapM_translatedM {α : Type} (x : Except Err α × DB) : translatedM (wrapM x) x :=
  ⟨wrap_translated x.1, rfl⟩

/-- C1: every settings-area route handler catches any throw of its body
and answers errorHandler applied to the status and message of the thrown
error; on success it answers its normal result, and the mutating
handlers keep the database state their body reached. -/
theorem c1_handlers_catch_to_errorHandler :
    (∀ fail ls teamId db, translated (listAllSettings fail ls teamId db) (listAllSettingsBody fail ls teamId db)) ∧
    (∀ fail ls req db, translatedM (saveSettings fail ls req db) (saveSettingsBody fail ls req db)) ∧
    (∀ fail ls dnsRes fqdn db, translatedM (deleteDomain fail ls dnsRes fqdn db) (deleteDomainBody fail ls dnsRes fqdn db)) ∧
    (∀ (ρ : Type) (dc : String → String → Except Err Bool) (dv : String → String → Bool → Except Err ρ) isDev hostname id req,
      translated (checkDomain dc dv isDev hostname id req) (checkDomainBody dc dv isDev hostname id req)) ∧
    (∀ res, translated (checkDNS res) (checkDNSBody res)) ∧
    (∀ fail teamId req newId createdAt db, translatedM (saveSSHKey fail teamId req newId createdAt db) (saveSSHKeyBody fail teamId req newId createdAt db)) ∧
    (∀ fail teamId id db, translatedM (deleteSSHKey fail teamId id db) (deleteSSHKeyBody fail teamId id db)) ∧
    (∀ fail execRes teamId id db, translatedM (deleteCertificates fail execRes teamId id db) (deleteCertificatesBody fail execRes teamId id db)) ∧
    (∀ fail teamId req db, translatedM (setDockerRegistry fail teamId req db) (setDockerRegistryBody fail teamId req db)) ∧
    (∀ fail teamId req newId db, translatedM (addDockerRegistry fail teamId req newId db) (addDockerRegistryBody fail teamId req newId db)) ∧
    (∀ fail teamId id db, translatedM (deleteDockerRegistry fail teamId id db) (deleteDockerRegistryBody fail teamId id db)) :=
  ⟨fun _ _ _ _ => wrap_translated _,
   fun _ _ _ _ => wrapM_translatedM _,
   fun _ _ _ _ _ => wrapM_translatedM _,
   fun _ _ _ _ _ _ _ => wrap_translated _,
   fun _ => wrap_translated _,
   fun _ _ _ _ _ _ => wrapM_translatedM _,
   fun _ _ _ _ => wrapM_translatedM _,
   fun _ _ _ _ _ => wrapM_translatedM _,
   fun _ _ _ _ => wrapM_translatedM _,
   fun _ _ _ _ _ => wrapM_translatedM _,
   fun _ _ _ _ => wrapM_translatedM _⟩

/-- C2 counterexample: a saveSettings request whose second update call
fails takes the error path yet leaves the settings mutated by the first
update call, so the stored settings state is not what it was before the
request. -/
theorem c2_counterexample_partial_update :
    (saveSettings failSecondCall (Except.ok settingRow0) reqSaveSettings dbSettingsOnly).1 =
      errorHandler (some 500) (some "db down") ∧
    (saveSettings failSecondCall (Except.ok settingRow0) reqSaveSettings dbSettingsOnly).2.settings ≠
      dbSettingsOnly.settings := by
  constructor
  · rfl
  · decide

/-- C2 amended: saveSettings mutates the settings row through up to four
separate update calls rather than one; the stored settings state is
guaranteed unchanged on the error path only when the failure strikes
before the first update call succeeded, as when the first update call
itself throws. -/
theorem c2_amended_first_failure_preserves_state :
    ∀ (fail : Nat → Option Err) (s : SettingRow) (req : SaveSettingsReq) (db : DB) (e : Err),
      fail 0 = some e →
      saveSettings fail (Except.ok s) req db = (errorHandler e.status e.message, db) := by
  intro fail s req db e h
  simp [saveSettings, wrapM, saveSettingsBody, settingUpdateWhereId, dbStep, h, wrap, errorHandler]

/-- Concrete run of the amended C2 statement. -/
theorem c2_amended_first_failure_preserves_state_witness :
    saveSettings (fun _ => some errDbDown) (Except.ok settingRow0) reqSaveSettings dbSettingsOnly =
      (errorHandler errDbDown.status errDbDown.message, dbSettingsOnly) :=
  c2_amended_first_failure_preserves_state (fun _ => some errDbDown) settingRow0 reqSaveSettings dbSettingsOnly errDbDown rfl

/-- Guarded lowercase step of checkDomain: lowering only a truthy fqdn
equals lowering it unconditionally, since the empty string lowers to
itself. -/
theorem lowercase_if_truthy (s : String) :
    (if s ≠ "" then jsToLowerCase s else s) = jsToLowerCase s := by
  by_cases h : s = ""
  · subst h; decide
  · rw [if_pos h]

/-- Flipped form of the guarded lowercase step, as produced by if-not
normalisation. -/
theorem lowercase_if_flipped (s : String) :
    (if s = "" then s else jsToLowerCase s) = jsToLowerCase s := by
  by_cases h : s = ""
  · subst h; decide
  · rw [if_neg h]

/-- C3: checkDomain lowercases the submitted fqdn, rejects a domain
already configured with the message Domain already configured, forwards
to checkDomainsIsValidInDNS on the request hostname stripped of its port
suffix when the DNS check is enabled, the save is not forced and the
server is not in dev mode, and answers the empty object in every other
non-error case. -/
theorem c3_checkDomain_dns_check :
    ∀ (ρ : Type) (dc : String → String → Except Err Bool)
      (dv : String → String → Bool → Except Err ρ)
      (isDev : Bool) (hostname : String) (id : String) (req : CheckDomainReq),
      (dc id (jsToLowerCase req.fqdn) = Except.ok true →
        checkDomain dc dv isDev hostname id req =
          errorHandler none (some "Domain already configured")) ∧
      (∀ r, dc id (jsToLowerCase req.fqdn) = Except.ok false →
        req.isDNSCheckEnabled = true → req.forceSave = false → isDev = false →
        dv ((jsSplit ':' hostname).headD "") (jsToLowerCase req.fqdn) req.dualCerts = Except.ok r →
        checkDomain dc dv isDev hostname id req = HandlerResult.ok (CheckDomainOut.dnsResult r)) ∧
      (dc id (jsToLowerCase req.fqdn) = Except.ok false →
        (req.isDNSCheckEnabled = false ∨ req.forceSave = true ∨ isDev = true) →
        checkDomain dc dv isDev hostname id req = HandlerResult.ok CheckDomainOut.emptyObj) := by
  intro ρ dc dv isDev hostname id req
  refine ⟨?_, ?_, ?_⟩
  · intro h
    simp [checkDomain, checkDomainBody, lowercase_if_truthy, lowercase_if_flipped, h, wrap, errorHandler]
  · intro r hfound h1 h2 h3 hdns
    rw [List.headD_eq_head?] at hdns
    simp [checkDomain, checkDomainBody, lowercase_if_truthy, lowercase_if_flipped, hfound, h1, h2, h3, hdns, wrap]
  · intro hfound hcase
    rcases hcase with h | h | h <;>
      simp [checkDomain, checkDomainBody, lowercase_if_truthy, lowercase_if_flipped, hfound, h, wrap]

/-- Concrete run of C3: with the DNS check disabled and the domain not
configured, checkDomain answers the empty object. -/
theorem c3_checkDomain_dns_check_witness :
    checkDomain (fun _ _ => Except.ok false) (fun _ _ _ => Except.ok (7 : Nat)) false
      "host:3000" "1" ⟨"Example.COM", false, false, false⟩ =
      HandlerResult.ok CheckDomainOut.emptyObj :=
  (c3_checkDomain_dns_check Nat (fun _ _ => Except.ok false) (fun _ _ _ => Except.ok 7) false
      "host:3000" "1" ⟨"Example.COM", false, false, false⟩).2.2 rfl (Or.inl rfl)

/-- C4 counterexample: SSH key creation is not guarded only by store
uniqueness constraints; when a key of the requested name already exists,
even one owned by another team, the handler itself rejects the request
with its own message and performs no create call, leaving the store
untouched. -/
theorem c4_counterexample_name_check_in_handler :
    saveSSHKey noFail "t2" ⟨"p", "a"⟩ "k2" 5 dbWithKeyA =
      (errorHandler none (some "Name already used. Choose another one please."), dbWithKeyA) := by
  rfl

/-- C4 amended: saveSSHKey does enforce an application-level invariant in
handler code: it first queries all stored SSH keys carrying the requested
name, regardless of team, and rejects the request with the message Name
already used. Choose another one please. whenever any exists, before any
create call. -/
theorem c4_amended_saveSSHKey_checks_name :
    ∀ (teamId : String) (req : SaveSSHKeyReq) (newId : String) (t : Nat) (db : DB),
      db.sshKeys.filter (fun k => decide (k.name = req.name)) ≠ [] →
      saveSSHKey noFail teamId req newId t db =
        (errorHandler none (some "Name already used. Choose another one please."), db) := by
  intro teamId req newId t db h
  have hl : 0 < (db.sshKeys.filter (fun k => decide (k.name = req.name))).length :=
    List.length_pos.mpr h
  simp [saveSSHKey, wrapM, saveSSHKeyBody, exTry, noFail, hl, wrap, errorHandler]

/-- Concrete run of the amended C4 statement. -/
theorem c4_amended_saveSSHKey_checks_name_witness :
    saveSSHKey noFail "t9" ⟨"q", "a"⟩ "k3" 9 dbWithKeyA =
      (errorHandler none (some "Name already used. Choose another one please."), dbWithKeyA) :=
  c4_amended_saveSSHKey_checks_name "t9" ⟨"q", "a"⟩ "k3" 9 dbWithKeyA (by decide)

/-- C5: the delete handlers for SSH keys, certificates and docker
registries are team-scoped: a stored row survives the operation whenever
it does not match both the submitted id and the requesting team, so every
row of another team is left in place, and a row removed by the operation
necessarily matched both. -/
theorem c5_deletes_are_team_scoped :
    ∀ (fail : Nat → Option Err) (execRes : Except Err Unit) (teamId id : String) (db : DB),
      (∀ k, k ∈ db.sshKeys → ¬(k.id = id ∧ k.teamId = teamId) →
        k ∈ (deleteSSHKey fail teamId id db).2.sshKeys) ∧
      (∀ k, k ∈ db.sshKeys → k ∉ (deleteSSHKey fail teamId id db).2.sshKeys →
        k.id = id ∧ k.teamId = teamId) ∧
      (∀ c, c ∈ db.certificates → ¬(c.id = id ∧ c.teamId = teamId) →
        c ∈ (deleteCertificates fail execRes teamId id db).2.certificates) ∧
      (∀ c, c ∈ db.certificates → c ∉ (deleteCertificates fail execRes teamId id db).2.certificates →
        c.id = id ∧ c.teamId = teamId) ∧
      (∀ r, r ∈ db.dockerRegistries → ¬(r.id = id ∧ r.teamId = teamId) →
        r ∈ (deleteDockerRegistry fail teamId id db).2.dockerRegistries) ∧
      (∀ r, r ∈ db.dockerRegistries → r ∉ (deleteDockerRegistry fail teamId id db).2.dockerRegistries →
        r.id = id ∧ r.teamId = teamId) := by
  intro fail execRes teamId id db
  refine ⟨?_, ?_, ?_, ?_, ?_, ?_⟩
  · intro k hk hne
    cases hf : fail 0 <;>
      simp [deleteSSHKey, wrapM, deleteSSHKeyBody, hf, List.mem_filter, hk, hne] <;> tauto
  · intro k hk hkn
    cases hf : fail 0 with
    | some e => exact absurd (by simpa [deleteSSHKey, wrapM, deleteSSHKeyBody, hf] using hk) hkn
    | none =>
      by_contra hnot
      exact hkn (by simp [deleteSSHKey, wrapM, deleteSSHKeyBody, hf, List.mem_filter, hk, hnot]; tauto)
  · intro c hc hne
    cases execRes with
    | error e => simpa [deleteCertificates, wrapM, deleteCertificatesBody] using hc
    | ok u =>
      cases hf : fail 0 <;>
        simp [deleteCertificates, wrapM, deleteCertificatesBody, hf, List.mem_filter, hc, hne] <;> tauto
  · intro c hc hcn
    cases execRes with
    | error e => exact absurd (by simpa [deleteCertificates, wrapM, deleteCertificatesBody] using hc) hcn
    | ok u =>
      cases hf : fail 0 with
      | some e => exact absurd (by simpa [deleteCertificates, wrapM, deleteCertificatesBody, hf] using hc) hcn
      | none =>
        by_contra hnot
        exact hcn (by simp [deleteCertificates, wrapM, deleteCertificatesBody, hf, List.mem_filter, hc, hnot]; tauto)
  · intro r hr hne
    cases hf : fail 0 with
    | some e => simpa [deleteDockerRegistry, wrapM, deleteDockerRegistryBody, hf] using hr
    | none =>
      cases hg : fail 1 <;>
        simp [deleteDockerRegistry, wrapM, deleteDockerRegistryBody, hf, hg, List.mem_filter, hr, hne] <;> tauto
  · intro r hr hrn
    cases hf : fail 0 with
    | some e => exact absurd (by simpa [deleteDockerRegistry, wrapM, deleteDockerRegistryBody, hf] using hr) hrn
    | none =>
      cases hg : fail 1 with
      | some e => exact absurd (by simpa [deleteDockerRegistry, wrapM, deleteDockerRegistryBody, hf, hg] using hr) hrn
      | none =>
        by_contra hnot
        exact hrn (by simp [deleteDockerRegistry, wrapM, deleteDockerRegistryBody, hf, hg, List.mem_filter, hr, hnot]; tauto)

/-- Concrete run of C5: deleting key id i of team t leaves the key of
team other with the same id in the store. -/
theorem c5_deletes_are_team_scoped_witness :
    sshKeyOtherTeam ∈ (deleteSSHKey noFail "t" "i" dbTwoTeams).2.sshKeys :=
  (c5_deletes_are_team_scoped noFail (Except.ok ()) "t" "i" dbTwoTeams).1
    sshKeyOtherTeam (by decide) (by decide)

/-- Round trip of the modelled secret encryption. -/
theorem decrypt_encrypt (p : String) : decrypt (encrypt p) = p := rfl

/-- The modelled encryption never produces the empty string, so an
encrypted stored password is always truthy. -/
theorem encrypt_ne_empty (p : String) : encrypt p ≠ "" := by
  intro h
  have hd := congrArg String.data h
  simp [encrypt] at hd

/-- When the pattern occurs at the start of the string, the first
occurrence found is at index 0. -/
theorem findSubIdx_of_isPrefixOf (pat : List Char) (l : List Char) (h : pat.isPrefixOf l = true) :
    findSubIdx pat l = some 0 := by
  cases l with
  | nil => simp [findSubIdx, h]
  | cons c rest => simp [findSubIdx, h]

/-- Replacing the CN= text in a line that starts with it strips exactly
its first three characters. -/
theorem replaceFirst_of_cn (line : String) (h : jsStartsWith line "CN=" = true) :
    replaceFirst line "CN=" "" = String.mk (line.data.drop 3) := by
  unfold jsStartsWith at h
  unfold replaceFirst
  rw [findSubIdx_of_isPrefixOf _ _ h]
  simp

/-- When every certificate subject of the list has a CN line, the
certificates loop succeeds and produces, in list order, one entry per
certificate carrying its id, its creation time, and the first CN line of
its subject with the CN= text stripped. -/
theorem computeCNs_ok_of_all_cn :
    ∀ (l : List CertificateRow),
      (∀ c, c ∈ l → ((jsSplit '\n' (x509subject c.cert)).find? (fun s => jsStartsWith s "CN=")).isSome = true) →
      ∃ cns, computeCNs l = Except.ok cns ∧
        List.Forall₂ (fun (e : CNEntry) (c : CertificateRow) =>
          e.id = c.id ∧ e.createdAt = c.createdAt ∧
          ∃ line, (jsSplit '\n' (x509subject c.cert)).find? (fun s => jsStartsWith s "CN=") = some line ∧
                  e.commonName = String.mk (line.data.drop 3)) cns l := by
  intro l
  induction l with
  | nil => intro _; exact ⟨[], rfl, List.Forall₂.nil⟩
  | cons c rest ih =>
    intro h
    have hc := h c (by simp)
    obtain ⟨line, hline⟩ := Option.isSome_iff_exists.mp hc
    have hstart : jsStartsWith line "CN=" = true := by
      have h0 := List.find?_some hline
      simpa using h0
    obtain ⟨cns, hcns, hf⟩ := ih (fun x hx => h x (by simp [hx]))
    refine ⟨⟨replaceFirst line "CN=" "", c.id, c.createdAt⟩ :: cns, ?_, ?_⟩
    · simp [computeCNs, extractCN, hline, hcns]
    · exact List.Forall₂.cons ⟨rfl, rfl, line, hline, replaceFirst_of_cn line hstart⟩ hf

/-- When some certificate subject of the list has no CN line, the
certificates loop throws the TypeError of calling replace on an
undefined find result. -/
theorem computeCNs_error_of_missing_cn :
    ∀ (l : List CertificateRow),
      (∃ c, c ∈ l ∧ ((jsSplit '\n' (x509subject c.cert)).find? (fun s => jsStartsWith s "CN=")) = none) →
      computeCNs l = Except.error jsUndefinedReplace := by
  intro l
  induction l with
  | nil =>
    rintro ⟨c, hc, _⟩
    exact absurd hc (List.not_mem_nil c)
  | cons c rest ih =>
    rintro ⟨d, hd, hnone⟩
    rcases List.mem_cons.mp hd with h | h
    · subst h
      simp [computeCNs, extractCN, hnone]
    · by_cases hc : ((jsSplit '\n' (x509subject c.cert)).find? (fun s => jsStartsWith s "CN=")) = none
      · simp [computeCNs, extractCN, hc]
      · obtain ⟨line, hline⟩ := Option.ne_none_iff_exists'.mp hc
        have hrest := ih ⟨d, h, hnone⟩
        simp [computeCNs, extractCN, hline, hrest]

/-- C6: a key saved through saveSSHKey is stored with its private key
encrypted, and a subsequent listAllSettings by the owning team returns it
with the private key decrypted back to the submitted plaintext; likewise
every registry password stored encrypted is returned decrypted. -/
theorem c6_secret_roundtrip :
    ∀ (teamId p name newId : String) (t : Nat) (db : DB) (s : SettingRow),
      db.sshKeys.filter (fun k => decide (k.name = name)) = [] →
      (∀ c, c ∈ db.certificates → c.teamId = teamId →
        ((jsSplit '\n' (x509subject c.cert)).find? (fun l => jsStartsWith l "CN=")).isSome = true) →
      (saveSSHKey noFail teamId ⟨p, name⟩ newId t db).1 = HandlerResult.ok Reply.code201 ∧
      (⟨newId, name, encrypt p, teamId, t⟩ : SshKeyRow) ∈ (saveSSHKey noFail teamId ⟨p, name⟩ newId t db).2.sshKeys ∧
      ∃ out, listAllSettings noFail (Except.ok s) teamId (saveSSHKey noFail teamId ⟨p, name⟩ newId t db).2 = HandlerResult.ok out ∧
        (⟨newId, name, p, t⟩ : UnencryptedKey) ∈ out.sshKeys ∧
        out.registries.publicR = (db.dockerRegistries.filter (fun r => r.isSystemWide)).map decryptRegistry ∧
        (∀ (r : DockerRegistryRow) (q : String), r.password = encrypt q → (decryptRegistry r).password = q) := by
  intro teamId p name newId t db s hname hcn
  have hsave : saveSSHKey noFail teamId ⟨p, name⟩ newId t db =
      (HandlerResult.ok Reply.code201,
       { db with sshKeys := db.sshKeys ++ [⟨newId, name, encrypt p, teamId, t⟩] }) := by
    simp [saveSSHKey, wrapM, saveSSHKeyBody, exTry, noFail, hname, wrap]
  refine ⟨by rw [hsave], by rw [hsave]; simp, ?_⟩
  rw [hsave]
  have hcn' : ∀ c, c ∈ db.certificates.filter (fun c => decide (c.teamId = teamId)) →
      ((jsSplit '\n' (x509subject c.cert)).find? (fun l => jsStartsWith l "CN=")).isSome = true := by
    intro c hcf
    have hm := List.mem_filter.mp hcf
    exact hcn c hm.1 (by simpa using hm.2)
  obtain ⟨cns, hcns, _⟩ := computeCNs_ok_of_all_cn _ hcn'
  have hfilter : ({ db with sshKeys := db.sshKeys ++ [⟨newId, name, encrypt p, teamId, t⟩] } : DB).sshKeys.filter
      (fun k => decide (k.teamId = teamId)) =
      db.sshKeys.filter (fun k => decide (k.teamId = teamId)) ++ [⟨newId, name, encrypt p, teamId, t⟩] := by
    simp [List.filter_append]
  have hlist : listAllSettings noFail (Except.ok s) teamId
      { db with sshKeys := db.sshKeys ++ [⟨newId, name, encrypt p, teamId, t⟩] } = HandlerResult.ok
      { settings := s, certificates := cns,
        sshKeys := (db.sshKeys.filter (fun k => decide (k.teamId = teamId)) ++ [(⟨newId, name, encrypt p, teamId, t⟩ : SshKeyRow)]).map
          (fun (k : SshKeyRow) => ({ id := k.id, name := k.name, privateKey := decrypt k.privateKey, createdAt := k.createdAt } : UnencryptedKey)),
        registries := { publicR := (db.dockerRegistries.filter (fun r => r.isSystemWide)).map decryptRegistry,
                        privateR := (db.dockerRegistries.filter (fun r => decide (r.teamId = teamId) && !r.isSystemWide)).map decryptRegistry } } := by
    simp [listAllSettings, wrap, listAllSettingsBody, exTry, noFail, hcns, hfilter]
  refine ⟨_, hlist, ?_, rfl, ?_⟩
  · refine List.mem_map.mpr ⟨⟨newId, name, encrypt p, teamId, t⟩, by simp, ?_⟩
    simp [decrypt_encrypt]
  · intro r q h
    simp [decryptRegistry, h, encrypt_ne_empty q, decrypt_encrypt]

/-- Concrete run of C6 on the empty store. -/
theorem c6_secret_roundtrip_witness :
    (saveSSHKey noFail "t" ⟨"secret", "n"⟩ "k1" 3 emptyDB).1 = HandlerResult.ok Reply.code201 :=
  (c6_secret_roundtrip "t" "secret" "n" "k1" 3 emptyDB settingRow0 (by decide) (by simp [emptyDB])).1

/-- C7: for every certificate of the requesting team whose subject holds
a CN line, listAllSettings returns, in store order, one entry carrying
the certificate id, its creation time, and the first CN line of its
subject with the CN= text stripped. -/
theorem c7_commonName_extraction :
    ∀ (s : SettingRow) (teamId : String) (db : DB),
      (∀ c, c ∈ db.certificates → c.teamId = teamId →
        ((jsSplit '\n' (x509subject c.cert)).find? (fun l => jsStartsWith l "CN=")).isSome = true) →
      ∃ out, listAllSettings noFail (Except.ok s) teamId db = HandlerResult.ok out ∧
        List.Forall₂ (fun (e : CNEntry) (c : CertificateRow) =>
          e.id = c.id ∧ e.createdAt = c.createdAt ∧
          ∃ line, (jsSplit '\n' (x509subject c.cert)).find? (fun l => jsStartsWith l "CN=") = some line ∧
                  e.commonName = String.mk (line.data.drop 3))
          out.certificates (db.certificates.filter (fun c => decide (c.teamId = teamId))) := by
  intro s teamId db hcn
  have hcn' : ∀ c, c ∈ db.certificates.filter (fun c => decide (c.teamId = teamId)) →
      ((jsSplit '\n' (x509subject c.cert)).find? (fun l => jsStartsWith l "CN=")).isSome = true := by
    intro c hcf
    have hm := List.mem_filter.mp hcf
    exact hcn c hm.1 (by simpa using hm.2)
  obtain ⟨cns, hcns, hf⟩ := computeCNs_ok_of_all_cn _ hcn'
  have hlist : listAllSettings noFail (Except.ok s) teamId db = HandlerResult.ok
      { settings := s, certificates := cns,
        sshKeys := (if (db.sshKeys.filter (fun k => decide (k.teamId = teamId))).length > 0 then
            (db.sshKeys.filter (fun k => decide (k.teamId = teamId))).map
              (fun (k : SshKeyRow) => ({ id := k.id, name := k.name, privateKey := decrypt k.privateKey, createdAt := k.createdAt } : UnencryptedKey))
          else []),
        registries := { publicR := (db.dockerRegistries.filter (fun r => r.isSystemWide)).map decryptRegistry,
                        privateR := (db.dockerRegistries.filter (fun r => decide (r.teamId = teamId) && !r.isSystemWide)).map decryptRegistry } } := by
    simp [listAllSettings, wrap, listAllSettingsBody, exTry, noFail, hcns]
  exact ⟨_, hlist, hf⟩

/-- Concrete run of C7 on a store with one certificate of subject
CN=example.com. -/
theorem c7_commonName_extraction_witness :
    ∃ out, listAllSettings noFail (Except.ok settingRow0) "t" dbCertCN = HandlerResult.ok out ∧
      List.Forall₂ (fun (e : CNEntry) (c : CertificateRow) =>
        e.id = c.id ∧ e.createdAt = c.createdAt ∧
        ∃ line, (jsSplit '\n' (x509subject c.cert)).find? (fun l => jsStartsWith l "CN=") = some line ∧
                e.commonName = String.mk (line.data.drop 3))
        out.certificates (dbCertCN.certificates.filter (fun c => decide (c.teamId = "t"))) :=
  c7_commonName_extraction settingRow0 "t" dbCertCN (by decide)

/-- C9: when some certificate of the requesting team has a subject with
no CN line, listAllSettings does not produce its normal result: the
common-name extraction throws, the catch clause runs, and the handler
answers the errorHandler reply for the thrown TypeError. -/
theorem c9_missing_cn_error_path :
    ∀ (s : SettingRow) (teamId : String) (db : DB),
      (∃ c, c ∈ db.certificates ∧ c.teamId = teamId ∧
        ((jsSplit '\n' (x509subject c.cert)).find? (fun l => jsStartsWith l "CN=")) = none) →
      listAllSettings noFail (Except.ok s) teamId db =
        errorHandler none (some "Cannot read properties of undefined") := by
  intro s teamId db hbad
  obtain ⟨c, hc, hteam, hnone⟩ := hbad
  have herr : computeCNs (db.certificates.filter (fun c => decide (c.teamId = teamId))) =
      Except.error jsUndefinedReplace :=
    computeCNs_error_of_missing_cn _ ⟨c, List.mem_filter.mpr ⟨hc, by simp [hteam]⟩, hnone⟩
  simp [listAllSettings, wrap, listAllSettingsBody, exTry, noFail, herr, errorHandler, jsUndefinedReplace]

/-- Concrete run of C9 on a store with one certificate of subject
O=example, which has no CN line. -/
theorem c9_missing_cn_error_path_witness :
    listAllSettings noFail (Except.ok settingRow0) "t" dbCertNoCN =
      errorHandler none (some "Cannot read properties of undefined") :=
  c9_missing_cn_error_path settingRow0 "t" dbCertNoCN ⟨certNoCN, by decide, by decide, by decide⟩

/-- C8: when no token cookie is present, the layout load function
redirects with status 302 to login from any path other than login and
register, carrying baseSettings in props, and returns a plain props
response with no status and no redirect on the login and register
paths. -/
theorem c8_load_auth_redirect :
    ∀ (β υ : Type) (token : Option String) (getUserRes : Except LoadErr υ) (pathname : String) (baseSettings : β),
      jsTruthyOptStr token = false →
      (pathname ≠ "/login" → pathname ≠ "/register" →
        load token getUserRes pathname baseSettings =
          { status := some 302, redirect := some "/login", propsBaseSettings := baseSettings,
            propsUser := none, stuff := none, isError := false }) ∧
      ((pathname = "/login" ∨ pathname = "/register") →
        load token getUserRes pathname baseSettings =
          { status := none, redirect := none, propsBaseSettings := baseSettings,
            propsUser := none, stuff := none, isError := false }) := by
  intro β υ token getUserRes pathname baseSettings htoken
  constructor
  · intro h1 h2
    simp [load, htoken, h1, h2]
  · intro hcase
    rcases hcase with h | h <;> simp [load, htoken, h]

/-- Concrete run of C8: without a token cookie, loading a page other than
login and register redirects to login. -/
theorem c8_load_auth_redirect_witness :
    load none (Except.ok ()) "/servers" (5 : Nat) =
      { status := some 302, redirect := some "/login", propsBaseSettings := (5 : Nat),
        propsUser := none, stuff := none, isError := false } :=
  (c8_load_auth_redirect Nat Unit none (Except.ok ()) "/servers" 5 rfl).1 (by decide) (by decide)

/-- C10 counterexample: with the submitted id 0, the registry row of id 0
owned by the requesting team is deleted, yet the application rows are
reset to the sentinel 0 and therefore still reference the removed
registry after the operation completes. -/
theorem c10_counterexample_registry_id_zero :
    (deleteDockerRegistry noFail "t" "0" dbRegZero).1 = HandlerResult.ok Reply.code201 ∧
    (deleteDockerRegistry noFail "t" "0" dbRegZero).2.dockerRegistries = [] ∧
    appRefZero ∈ (deleteDockerRegistry noFail "t" "0" dbRegZero).2.applications ∧
    appRefZero.dockerRegistryId = "0" := by
  refine ⟨rfl, rfl, ?_, rfl⟩
  decide

/-- C10 amended: for every submitted id other than the sentinel 0,
deleteDockerRegistry resets every application referencing the id before
deleting the matching registry rows of the requesting team, so after the
operation completes no application row references the removed
registry. -/
theorem c10_amended_no_dangling_registry_refs :
    ∀ (teamId id : String) (db : DB),
      id ≠ "0" →
      (deleteDockerRegistry noFail teamId id db).1 = HandlerResult.ok Reply.code201 ∧
      (∀ a, a ∈ (deleteDockerRegistry noFail teamId id db).2.applications → a.dockerRegistryId ≠ id) ∧
      (∀ r, r ∈ (deleteDockerRegistry noFail teamId id db).2.dockerRegistries → ¬(r.id = id ∧ r.teamId = teamId)) := by
  intro teamId id db hid
  refine ⟨rfl, ?_, ?_⟩
  · intro a ha
    simp [deleteDockerRegistry, wrapM, deleteDockerRegistryBody, noFail, List.mem_map] at ha
    obtain ⟨a0, _, ha0⟩ := ha
    by_cases hc : a0.dockerRegistryId = id
    · rw [if_pos hc] at ha0
      rw [← ha0]
      exact fun hcontra => hid (by simpa using hcontra.symm)
    · rw [if_neg hc] at ha0
      rw [← ha0]
      exact hc
  · intro r hr
    have hm : r ∈ db.dockerRegistries ∧ (¬r.id = id ∨ ¬r.teamId = teamId) := by
      simpa [deleteDockerRegistry, wrapM, deleteDockerRegistryBody, noFail, List.mem_filter] using hr
    tauto

/-- Concrete run of the amended C10 statement. -/
theorem c10_amended_no_dangling_registry_refs_witness :
    (deleteDockerRegistry noFail "t" "r1" dbRegZero).1 = HandlerResult.ok Reply.code201 :=
  (c10_amended_no_dangling_registry_refs "t" "r1" dbRegZero (by decide)).1
